import Mathlib

/-!
Shallow embedding of `src/main.py`, a FastAPI + SQLModel service with two
tables (`Company`, `Feedback`) and four request handlers:
`get_companies`, `get_feedbacks_for_company`, `create_feedback`,
`get_company_reputation`.  The relational store is modelled as an explicit
`Store` value threaded through handlers; SQLAlchemy's `session.get` becomes
lookup by primary key in a list, `select ... where` becomes `List.filter`,
and the server clock / autoincrement id are abstract counters in the store.
Python `float` averages are modelled exactly with `ℚ`; Python's
`round(x, 2)` is round-half-to-even at two decimal places.
-/

/-- `class FeedbackType(str, enum.Enum)` with members
`RECLAMACAO = "reclamacao"` (complaint) and `ELOGIO = "elogio"`
(compliment). -/
inductive FeedbackType where
  | reclamacao
  | elogio
deriving DecidableEq, Repr

/-- Pydantic/FastAPI enum coercion: a request-body string is accepted iff
it is one of the two enum values of `FeedbackType`. -/
def FeedbackType.parse (s : String) : Option FeedbackType :=
  if s = "reclamacao" then some FeedbackType.reclamacao
  else if s = "elogio" then some FeedbackType.elogio
  else none

/-- `class Company(SQLModel, table=True)`: surrogate `id`, indexed `name`,
optional `industry`. -/
structure Company where
  id : Int
  name : String
  industry : Option String
deriving DecidableEq, Repr

/-- A persisted `Feedback` row (`class Feedback(FeedbackBase, table=True)`):
the `FeedbackBase` fields plus server-assigned `id` and `timestamp`.
`rating: int = Field(ge=1, le=5)` is an `Int`; `company_id` is nullable at
schema level (`Optional[int]`), hence `Option Int`.  The wall-clock
timestamp is abstracted to an integer tick. -/
structure Feedback where
  id : Int
  type : FeedbackType
  rating : Int
  comment : Option String
  company_id : Option Int
  timestamp : Int
deriving DecidableEq, Repr

/-- `class FeedbackCreate(FeedbackBase)`: the request body after pydantic
validation succeeded (enum parsed, rating range checked). -/
structure FeedbackCreate where
  type : FeedbackType
  rating : Int
  comment : Option String
  company_id : Option Int
deriving DecidableEq, Repr

/-- A raw request body for `POST /feedbacks` before pydantic validation:
`type` is still a string, `rating` an unconstrained integer. -/
structure RawFeedback where
  type : String
  rating : Int
  comment : Option String
  company_id : Option Int
deriving DecidableEq, Repr

/-- Pydantic validation of `FeedbackCreate`: the `type` string must parse
to the enum, and `rating` must satisfy `Field(ge=1, le=5)`.  Returns
`none` exactly when FastAPI would answer 422 before the handler runs. -/
def validateFeedback (raw : RawFeedback) : Option FeedbackCreate :=
  match FeedbackType.parse raw.type with
  | none => none
  | some t =>
      if 1 ≤ raw.rating ∧ raw.rating ≤ 5 then
        some ⟨t, raw.rating, raw.comment, raw.company_id⟩
      else
        none

/-- `class Reputation(BaseModel)`: the response of
`GET /companies/{id}/reputation`.  `average_rating: Optional[float]` is
modelled exactly as `Option ℚ`. -/
structure Reputation where
  company_id : Int
  company_name : String
  average_rating : Option ℚ
  total_feedbacks : Nat
  feedback_with_rating_count : Nat
deriving DecidableEq, Repr

/-- The persistent SQLite store: the two tables plus the autoincrement
counter for `Feedback.id` and the server clock used for `timestamp`. -/
structure Store where
  companies : List Company
  feedbacks : List Feedback
  nextFeedbackId : Int
  clock : Int
deriving DecidableEq, Repr

/-- Errors surfaced to clients: `HTTPException(404, detail)` raised by the
handlers, and the 422 pydantic validation error raised before them. -/
inductive ApiError where
  | notFound (detail : String)
  | validationError
deriving DecidableEq, Repr

/-- `session.get(Company, company_id)`: primary-key lookup. -/
def getCompany (s : Store) (cid : Int) : Option Company :=
  s.companies.find? (fun c => c.id == cid)

/-- `session.get(Company, feedback_data.company_id)` where the key comes
from the nullable `company_id` field: a null key matches no row. -/
def getCompanyOpt (s : Store) (cid : Option Int) : Option Company :=
  match cid with
  | none => none
  | some i => getCompany s i

/-- `select(Feedback).where(Feedback.company_id == company_id)`. -/
def feedbacksWhereCompany (s : Store) (cid : Int) : List Feedback :=
  s.feedbacks.filter (fun f => f.company_id == some cid)

/-- Python `round` at two decimal places on an exact rational:
round half to even, ties going to the even hundredth.  Implemented on the
numerator and denominator so that the kernel can evaluate it: `lo` is
`⌊100 q⌋` and `rem / D` the fractional part. -/
def pyRound2 (q : ℚ) : ℚ :=
  let N : Int := q.num * 100
  let D : Int := (q.den : Int)
  let lo : Int := Int.fdiv N D
  let rem : Int := N - lo * D
  let n : Int :=
    if 2 * rem < D then lo
    else if D < 2 * rem then lo + 1
    else if lo % 2 = 0 then lo else lo + 1
  (n : ℚ) / 100

/-- Handler `GET /companies` (`get_companies`): return every `Company`
row.  No write is performed. -/
def get_companies (s : Store) : List Company :=
  s.companies

/-- Handler `GET /companies/{company_id}/feedbacks`
(`get_feedbacks_for_company`): 404 when the company id does not resolve,
otherwise the rows of `select(Feedback).where(company_id == company_id)`.
No write is performed. -/
def get_feedbacks_for_company (s : Store) (company_id : Int) :
    Except ApiError (List Feedback) :=
  match getCompany s company_id with
  | none => Except.error (ApiError.notFound "Empresa não encontrada")
  | some _ => Except.ok (feedbacksWhereCompany s company_id)

/-- Handler `POST /feedbacks` (`create_feedback`), after pydantic
validation: 404 with a descriptive message when `company_id` does not
resolve (no insert), otherwise insert a row with server-assigned id and
timestamp, commit, and return the persisted row. -/
def create_feedback (s : Store) (feedback_data : FeedbackCreate) :
    Except ApiError Feedback × Store :=
  match getCompanyOpt s feedback_data.company_id with
  | none =>
      (Except.error (ApiError.notFound
        ("Empresa com ID " ++ toString feedback_data.company_id
          ++ " não encontrada.")), s)
  | some _ =>
      let db_feedback : Feedback :=
        { id := s.nextFeedbackId
          type := feedback_data.type
          rating := feedback_data.rating
          comment := feedback_data.comment
          company_id := feedback_data.company_id
          timestamp := s.clock }
      (Except.ok db_feedback,
        { s with
            feedbacks := s.feedbacks ++ [db_feedback]
            nextFeedbackId := s.nextFeedbackId + 1
            clock := s.clock + 1 })

/-- Handler `GET /companies/{company_id}/reputation`
(`get_company_reputation`): 404 when the company id does not resolve;
otherwise select the `rating` column, separately count the feedback rows,
filter out null ratings (`r is not None` — the column values of the
selected rows, wrapped as SQL values), and average the survivors when any
exist, rounding to two decimal places.  No write is performed. -/
def get_company_reputation (s : Store) (company_id : Int) :
    Except ApiError Reputation :=
  match getCompany s company_id with
  | none => Except.error (ApiError.notFound "Empresa não encontrada")
  | some company =>
      let ratings_result : List (Option Int) :=
        (feedbacksWhereCompany s company_id).map (fun f => some f.rating)
      let total_feedbacks : Nat :=
        (feedbacksWhereCompany s company_id).length
      let ratings : List Int := ratings_result.filterMap id
      let feedback_with_rating_count : Nat := ratings.length
      let average_rating : Option ℚ :=
        if 0 < feedback_with_rating_count then
          some (pyRound2
            ((ratings.map (fun r => (r : ℚ))).sum
              / (feedback_with_rating_count : ℚ)))
        else none
      Except.ok
        { company_id := company_id
          company_name := company.name
          average_rating := average_rating
          total_feedbacks := total_feedbacks
          feedback_with_rating_count := feedback_with_rating_count }

/-- The full `POST /feedbacks` pipeline: pydantic validation first (422,
no state change, business logic never runs), then the handler. -/
def post_feedback (s : Store) (raw : RawFeedback) :
    Except ApiError Feedback × Store :=
  match validateFeedback raw with
  | none => (Except.error ApiError.validationError, s)
  | some feedback_data => create_feedback s feedback_data

/-- One request of the HTTP surface. -/
inductive Request where
  | listCompanies
  | listFeedbacks (company_id : Int)
  | createFeedback (raw : RawFeedback)
  | reputation (company_id : Int)
deriving DecidableEq, Repr

/-- One response of the HTTP surface. -/
inductive Response where
  | companies (cs : List Company)
  | feedbacks (fs : List Feedback)
  | created (f : Feedback)
  | reputationOf (r : Reputation)
  | failure (e : ApiError)
deriving DecidableEq, Repr

/-- Dispatcher: run one request against the store, returning the response
and the store afterwards.  The three GET handlers perform no
`session.add`/`session.commit`, so they return the store unchanged. -/
def handle (s : Store) (r : Request) : Response × Store :=
  match r with
  | Request.listCompanies => (Response.companies (get_companies s), s)
  | Request.listFeedbacks cid =>
      match get_feedbacks_for_company s cid with
      | Except.error e => (Response.failure e, s)
      | Except.ok fs => (Response.feedbacks fs, s)
  | Request.createFeedback raw =>
      match post_feedback s raw with
      | (Except.error e, s2) => (Response.failure e, s2)
      | (Except.ok f, s2) => (Response.created f, s2)
  | Request.reputation cid =>
      match get_company_reputation s cid with
      | Except.error e => (Response.failure e, s)
      | Except.ok rep => (Response.reputationOf rep, s)

/-- The referential-integrity invariant of §3 of the data model: every
persisted `Feedback` row references an existing `Company` row. -/
def feedbacksReferenceCompanies (s : Store) : Prop :=
  ∀ f ∈ s.feedbacks, ∃ c ∈ s.companies, f.company_id = some c.id

/-- The multiset of rating values of a company's feedback rows, i.e. the
non-wrapped content of `select(Feedback.rating).where(company_id == cid)`. -/
def companyRatings (s : Store) (cid : Int) : List Int :=
  (feedbacksWhereCompany s cid).map (fun f => f.rating)

/-- A concrete store used by witnesses: the three seeded companies, the
first of which has three feedback rows with ratings 4, 5 and 3. -/
def exStore : Store :=
  { companies :=
      [ ⟨1, "Empresa Alpha DB", some "Tecnologia"⟩
      , ⟨2, "Consultoria Beta DB", some "Consultoria"⟩
      , ⟨3, "Varejo Gamma DB", some "Varejo"⟩ ]
    feedbacks :=
      [ ⟨1, FeedbackType.elogio, 4, none, some 1, 10⟩
      , ⟨2, FeedbackType.reclamacao, 5, some "ok", some 1, 11⟩
      , ⟨3, FeedbackType.elogio, 3, none, some 1, 12⟩ ]
    nextFeedbackId := 4
    clock := 13 }

/-- The wrapped rating column of the selected rows, filtered by
`r is not None`, is just the list of rating values. -/
theorem filterMap_id_map_some (l : List Feedback) :
    (l.map (fun f => some f.rating)).filterMap id =
      l.map (fun f => f.rating) := by
  induction l with
  | nil => rfl
  | cons a l ih => simp [List.map_cons, List.filterMap_cons, ih]

/-- Closed form of the reputation handler on an existing company. -/
theorem get_company_reputation_eq (s : Store) (cid : Int) (c : Company)
    (h : getCompany s cid = some c) :
    get_company_reputation s cid = Except.ok
      { company_id := cid
        company_name := c.name
        average_rating :=
          if 0 < (companyRatings s cid).length then
            some (pyRound2
              (((companyRatings s cid).map (fun r => (r : ℚ))).sum
                / ((companyRatings s cid).length : ℚ)))
          else none
        total_feedbacks := (feedbacksWhereCompany s cid).length
        feedback_with_rating_count := (companyRatings s cid).length } := by
  unfold get_company_reputation
  rw [h]
  simp only [filterMap_id_map_some]
  rfl

/-- C1: for every company id that resolves to an existing company, the
reputation handler answers successfully; when at least one non-null rating
exists among the company's feedback rows, `average_rating` is the sum of
the ratings divided by the count of non-null ratings, rounded to two
decimal places (round half to even), and otherwise `average_rating` is
null. -/
theorem C1_reputation_average (s : Store) (cid : Int) (c : Company)
    (h : getCompany s cid = some c) :
    get_company_reputation s cid = Except.ok
      { company_id := cid
        company_name := c.name
        average_rating :=
          if 0 < (companyRatings s cid).length then
            some (pyRound2
              (((companyRatings s cid).map (fun r => (r : ℚ))).sum
                / ((companyRatings s cid).length : ℚ)))
          else none
        total_feedbacks := (feedbacksWhereCompany s cid).length
        feedback_with_rating_count := (companyRatings s cid).length } :=
  get_company_reputation_eq s cid c h

/-- C1, witnessed: on the seeded store, company 1 has ratings `[4, 5, 3]`
and its reputation is `average_rating = 4.00`, `total_feedbacks = 3`,
`feedback_with_rating_count = 3`. -/
theorem C1_reputation_average_witness :
    companyRatings exStore 1 = [4, 5, 3] ∧
    get_company_reputation exStore 1 = Except.ok
      { company_id := 1
        company_name := "Empresa Alpha DB"
        average_rating := some 4
        total_feedbacks := 3
        feedback_with_rating_count := 3 } := by
  constructor
  · rfl
  · have h := C1_reputation_average exStore 1
      ⟨1, "Empresa Alpha DB", some "Tecnologia"⟩ rfl
    rw [h]
    norm_num [companyRatings, feedbacksWhereCompany, exStore,
      List.filter, pyRound2]

/-- C2: for every existing company, the two independently computed counts
of the reputation handler — `total_feedbacks` from the separate
row-count query and `feedback_with_rating_count` from the non-null
ratings — are equal. -/
theorem C2_counts_equal (s : Store) (cid : Int) (c : Company)
    (h : getCompany s cid = some c) (rep : Reputation)
    (hrep : get_company_reputation s cid = Except.ok rep) :
    rep.total_feedbacks = rep.feedback_with_rating_count := by
  rw [get_company_reputation_eq s cid c h] at hrep
  cases hrep
  simp [companyRatings, List.length_map]

/-- C2, witnessed at company 1 of the seeded store. -/
theorem C2_counts_equal_witness :
    (Reputation.mk 1 "Empresa Alpha DB" (some 4) 3 3).total_feedbacks =
      (Reputation.mk 1 "Empresa Alpha DB" (some 4) 3 3).feedback_with_rating_count := by
  apply C2_counts_equal exStore 1
    ⟨1, "Empresa Alpha DB", some "Tecnologia"⟩ rfl
    (Reputation.mk 1 "Empresa Alpha DB" (some 4) 3 3)
  rw [get_company_reputation_eq exStore 1
    ⟨1, "Empresa Alpha DB", some "Tecnologia"⟩ rfl]
  norm_num [companyRatings, feedbacksWhereCompany, exStore,
    List.filter, pyRound2]

/-- C3: a feedback-creation request whose `company_id` does not resolve to
an existing company fails with Not-Found carrying a descriptive message,
and performs no insert: the whole store, its feedback table in particular,
is unchanged. -/
theorem C3_create_unknown_company (s : Store) (d : FeedbackCreate)
    (h : getCompanyOpt s d.company_id = none) :
    create_feedback s d =
      (Except.error (ApiError.notFound
        ("Empresa com ID " ++ toString d.company_id
          ++ " não encontrada.")), s) ∧
    (create_feedback s d).2.feedbacks = s.feedbacks := by
  have hmain : create_feedback s d =
      (Except.error (ApiError.notFound
        ("Empresa com ID " ++ toString d.company_id
          ++ " não encontrada.")), s) := by
    unfold create_feedback
    rw [h]
  exact ⟨hmain, by rw [hmain]⟩

/-- C3, witnessed: creating feedback for the unseeded company id 99 on the
seeded store fails with Not-Found and leaves the store unchanged. -/
theorem C3_create_unknown_company_witness :
    create_feedback exStore ⟨FeedbackType.elogio, 5, none, some 99⟩ =
      (Except.error (ApiError.notFound
        ("Empresa com ID " ++ toString (some 99 : Option Int)
          ++ " não encontrada.")), exStore) ∧
    (create_feedback exStore ⟨FeedbackType.elogio, 5, none, some 99⟩).2.feedbacks =
      exStore.feedbacks :=
  C3_create_unknown_company exStore ⟨FeedbackType.elogio, 5, none, some 99⟩ rfl

/-- C4: for every existing company with zero feedback rows, the
reputation handler returns `average_rating = null`, `total_feedbacks = 0`
and `feedback_with_rating_count = 0`. -/
theorem C4_zero_feedbacks (s : Store) (cid : Int) (c : Company)
    (h : getCompany s cid = some c)
    (hz : feedbacksWhereCompany s cid = []) :
    get_company_reputation s cid = Except.ok
      { company_id := cid
        company_name := c.name
        average_rating := none
        total_feedbacks := 0
        feedback_with_rating_count := 0 } := by
  rw [get_company_reputation_eq s cid c h]
  simp [companyRatings, hz]

/-- C4, witnessed: company 2 of the seeded store has no feedback rows and
its reputation is `(null, 0, 0)`. -/
theorem C4_zero_feedbacks_witness :
    get_company_reputation exStore 2 = Except.ok
      { company_id := 2
        company_name := "Consultoria Beta DB"
        average_rating := none
        total_feedbacks := 0
        feedback_with_rating_count := 0 } :=
  C4_zero_feedbacks exStore 2 ⟨2, "Consultoria Beta DB", some "Consultoria"⟩
    rfl rfl

/-- C5: for every company id that does not resolve to an existing company,
both the feedback-listing handler and the reputation handler answer
Not-Found — neither returns an empty list or a default reputation
object. -/
theorem C5_unknown_company_both_404 (s : Store) (cid : Int)
    (h : getCompany s cid = none) :
    get_feedbacks_for_company s cid =
      Except.error (ApiError.notFound "Empresa não encontrada") ∧
    get_company_reputation s cid =
      Except.error (ApiError.notFound "Empresa não encontrada") := by
  constructor
  · unfold get_feedbacks_for_company
    rw [h]
  · unfold get_company_reputation
    rw [h]

/-- C5, witnessed at the unseeded company id 99. -/
theorem C5_unknown_company_both_404_witness :
    get_feedbacks_for_company exStore 99 =
      Except.error (ApiError.notFound "Empresa não encontrada") ∧
    get_company_reputation exStore 99 =
      Except.error (ApiError.notFound "Empresa não encontrada") :=
  C5_unknown_company_both_404 exStore 99 rfl

/-- C6: for every existing company id, the feedback-listing handler
returns exactly the persisted rows whose `company_id` equals the queried
id: a row is in the answer iff it is a persisted row with that
`company_id`. -/
theorem C6_listing_exact (s : Store) (cid : Int) (c : Company)
    (h : getCompany s cid = some c) (f : Feedback) :
    get_feedbacks_for_company s cid =
      Except.ok (feedbacksWhereCompany s cid) ∧
    (f ∈ feedbacksWhereCompany s cid ↔
      f ∈ s.feedbacks ∧ f.company_id = some cid) := by
  constructor
  · unfold get_feedbacks_for_company
    rw [h]
  · simp [feedbacksWhereCompany, List.mem_filter]

/-- C6, witnessed: on the seeded store, listing company 1 succeeds with
the filtered rows, and row 1 (which belongs to company 1) is
characterised by the membership equivalence. -/
theorem C6_listing_exact_witness :
    get_feedbacks_for_company exStore 1 =
      Except.ok (feedbacksWhereCompany exStore 1) ∧
    ((⟨1, FeedbackType.elogio, 4, none, some 1, 10⟩ : Feedback) ∈
        feedbacksWhereCompany exStore 1 ↔
      (⟨1, FeedbackType.elogio, 4, none, some 1, 10⟩ : Feedback) ∈
          exStore.feedbacks ∧
        (⟨1, FeedbackType.elogio, 4, none, some 1, 10⟩ : Feedback).company_id =
          some 1) :=
  C6_listing_exact exStore 1 ⟨1, "Empresa Alpha DB", some "Tecnologia"⟩ rfl
    ⟨1, FeedbackType.elogio, 4, none, some 1, 10⟩

/-- A successful primary-key lookup through the nullable key returns a
company of the table whose id is the key. -/
theorem getCompanyOpt_some (s : Store) (cid : Option Int) (c : Company)
    (h : getCompanyOpt s cid = some c) :
    c ∈ s.companies ∧ cid = some c.id := by
  cases cid with
  | none => simp [getCompanyOpt] at h
  | some i =>
      simp only [getCompanyOpt] at h
      unfold getCompany at h
      have hmem := List.mem_of_find?_eq_some h
      have hp := List.find?_some h
      simp at hp
      exact ⟨hmem, by rw [hp]⟩

/-- Pydantic validation never changes the `company_id` field. -/
theorem validateFeedback_company_id (raw : RawFeedback) (d : FeedbackCreate)
    (h : validateFeedback raw = some d) :
    d.company_id = raw.company_id := by
  cases hp : FeedbackType.parse raw.type with
  | none =>
      simp only [validateFeedback, hp] at h
      cases h
  | some t =>
      simp only [validateFeedback, hp] at h
      by_cases hr : 1 ≤ raw.rating ∧ raw.rating ≤ 5
      · rw [if_pos hr] at h
        cases h
        rfl
      · rw [if_neg hr] at h
        cases h

/-- C7: a feedback-creation request with a parseable type and a rating in
`[1, 5]` passes validation (and is handed to the handler for
persistence); a rating outside `[1, 5]` is rejected with a validation
error before any business logic runs and the store is untouched. -/
theorem C7_rating_validation (s : Store) (raw : RawFeedback)
    (t : FeedbackType) (ht : FeedbackType.parse raw.type = some t) :
    (1 ≤ raw.rating ∧ raw.rating ≤ 5 →
      validateFeedback raw =
        some ⟨t, raw.rating, raw.comment, raw.company_id⟩) ∧
    (¬(1 ≤ raw.rating ∧ raw.rating ≤ 5) →
      validateFeedback raw = none ∧
      post_feedback s raw = (Except.error ApiError.validationError, s)) := by
  constructor
  · intro hr
    simp only [validateFeedback, ht]
    rw [if_pos hr]
  · intro hr
    have hv : validateFeedback raw = none := by
      simp only [validateFeedback, ht]
      rw [if_neg hr]
    refine ⟨hv, ?_⟩
    unfold post_feedback
    rw [hv]

/-- C7, witnessed: rating 3 passes validation, rating 6 is rejected with
a validation error and the seeded store is unchanged. -/
theorem C7_rating_validation_witness :
    validateFeedback ⟨"elogio", 3, none, some 1⟩ =
      some ⟨FeedbackType.elogio, 3, none, some 1⟩ ∧
    (validateFeedback ⟨"elogio", 6, none, some 1⟩ = none ∧
      post_feedback exStore ⟨"elogio", 6, none, some 1⟩ =
        (Except.error ApiError.validationError, exStore)) := by
  constructor
  · exact (C7_rating_validation exStore ⟨"elogio", 3, none, some 1⟩
      FeedbackType.elogio rfl).1 (by decide)
  · exact (C7_rating_validation exStore ⟨"elogio", 6, none, some 1⟩
      FeedbackType.elogio rfl).2 (by decide)

/-- C8: every request preserves the invariant that each persisted
feedback row references an existing company, and a creation request whose
`company_id` is null is rejected (some error is returned) with the store
unchanged, even though the column is nullable at schema level. -/
theorem C8_referential_integrity (s : Store)
    (hinv : feedbacksReferenceCompanies s) :
    (∀ r : Request, feedbacksReferenceCompanies (handle s r).2) ∧
    (∀ raw : RawFeedback, raw.company_id = none →
      (∃ e, (post_feedback s raw).1 = Except.error e) ∧
      (post_feedback s raw).2 = s) := by
  constructor
  · intro r
    cases r with
    | listCompanies => exact hinv
    | listFeedbacks cid =>
        rcases h : get_feedbacks_for_company s cid with e | fs <;>
          simpa [handle, h] using hinv
    | reputation cid =>
        rcases h : get_company_reputation s cid with e | rep <;>
          simpa [handle, h] using hinv
    | createFeedback raw =>
        cases hval : validateFeedback raw with
        | none => simpa [handle, post_feedback, hval] using hinv
        | some d =>
            cases hc : getCompanyOpt s d.company_id with
            | none =>
                simpa [handle, post_feedback, create_feedback, hval, hc]
                  using hinv
            | some c =>
                obtain ⟨hcmem, hcid⟩ := getCompanyOpt_some s d.company_id c hc
                intro f hf
                simp only [handle, post_feedback, create_feedback, hval, hc] at hf ⊢
                rcases List.mem_append.mp hf with hold | hnew
                · obtain ⟨c2, hc2, hcid2⟩ := hinv f hold
                  exact ⟨c2, hc2, hcid2⟩
                · refine ⟨c, hcmem, ?_⟩
                  rw [List.mem_singleton] at hnew
                  subst hnew
                  exact hcid
  · intro raw hnone
    cases hval : validateFeedback raw with
    | none =>
        exact ⟨⟨ApiError.validationError, by simp [post_feedback, hval]⟩,
          by simp [post_feedback, hval]⟩
    | some d =>
        have hd : d.company_id = none := by
          rw [validateFeedback_company_id raw d hval, hnone]
        have hc : getCompanyOpt s d.company_id = none := by
          rw [hd]
          rfl
        constructor
        · refine ⟨ApiError.notFound ("Empresa com ID "
            ++ toString d.company_id ++ " não encontrada."), ?_⟩
          simp [post_feedback, hval, create_feedback, hc]
        · simp [post_feedback, hval, create_feedback, hc]

/-- C8, witnessed: on the seeded store, a valid creation against company 2
preserves the referential-integrity invariant, and a creation with a null
`company_id` is rejected with the store unchanged. -/
theorem C8_referential_integrity_witness :
    feedbacksReferenceCompanies
      (handle exStore (Request.createFeedback ⟨"elogio", 5, none, some 2⟩)).2 ∧
    (post_feedback exStore ⟨"elogio", 5, none, none⟩).2 = exStore := by
  have h := C8_referential_integrity exStore
    (by unfold feedbacksReferenceCompanies; decide)
  exact ⟨h.1 (Request.createFeedback ⟨"elogio", 5, none, some 2⟩),
    (h.2 ⟨"elogio", 5, none, none⟩ rfl).2⟩

/-- C9: the feedback type is an enum with exactly the two values
(complaint, spelled `reclamacao`, and compliment, spelled `elogio`), and
a creation request whose type string is neither of them is rejected with
a validation error before any business logic runs, with the store
untouched. -/
theorem C9_feedback_type_enum (s : Store) (raw : RawFeedback)
    (h1 : raw.type ≠ "reclamacao") (h2 : raw.type ≠ "elogio") :
    (∀ t : FeedbackType,
      t = FeedbackType.reclamacao ∨ t = FeedbackType.elogio) ∧
    FeedbackType.parse raw.type = none ∧
    validateFeedback raw = none ∧
    post_feedback s raw = (Except.error ApiError.validationError, s) := by
  have hp : FeedbackType.parse raw.type = none := by
    unfold FeedbackType.parse
    rw [if_neg h1, if_neg h2]
  have hv : validateFeedback raw = none := by
    unfold validateFeedback
    rw [hp]
  refine ⟨fun t => by cases t <;> simp, hp, hv, ?_⟩
  unfold post_feedback
  rw [hv]

/-- C9, witnessed: the type string `"spam"` is rejected before the
handler runs and the seeded store is unchanged. -/
theorem C9_feedback_type_enum_witness :
    (∀ t : FeedbackType,
      t = FeedbackType.reclamacao ∨ t = FeedbackType.elogio) ∧
    FeedbackType.parse "spam" = none ∧
    validateFeedback ⟨"spam", 3, none, some 1⟩ = none ∧
    post_feedback exStore ⟨"spam", 3, none, some 1⟩ =
      (Except.error ApiError.validationError, exStore) :=
  C9_feedback_type_enum exStore ⟨"spam", 3, none, some 1⟩
    (by decide) (by decide)

/-- C10: the three GET operations are read-only and deterministic: each
leaves the store exactly as it was, and calling the same GET again right
afterwards returns the identical response and store. -/
theorem C10_get_read_only (s : Store) (cid1 cid2 : Int) :
    ((handle s Request.listCompanies).2 = s ∧
      handle (handle s Request.listCompanies).2 Request.listCompanies =
        handle s Request.listCompanies) ∧
    ((handle s (Request.listFeedbacks cid1)).2 = s ∧
      handle (handle s (Request.listFeedbacks cid1)).2
          (Request.listFeedbacks cid1) =
        handle s (Request.listFeedbacks cid1)) ∧
    ((handle s (Request.reputation cid2)).2 = s ∧
      handle (handle s (Request.reputation cid2)).2
          (Request.reputation cid2) =
        handle s (Request.reputation cid2)) := by
  have hfb : (handle s (Request.listFeedbacks cid1)).2 = s := by
    rcases h : get_feedbacks_for_company s cid1 with e | fs <;>
      simp [handle, h]
  have hrep : (handle s (Request.reputation cid2)).2 = s := by
    rcases h : get_company_reputation s cid2 with e | rep <;>
      simp [handle, h]
  exact ⟨⟨rfl, rfl⟩, ⟨hfb, by rw [hfb]⟩, ⟨hrep, by rw [hrep]⟩⟩
